import Mathlib

/-!
Shallow embedding of `src/bin/updater/src/UpdateManager.py` (class
`UpdateManager` of the universal-tool-updater launcher), for checking the
specification's claims about process lifecycle (mutex lock file, signal
handling), option resolution, target-list generation and the batch update
pass.

Modelling conventions:
* The file system state relevant to the program is the contents of the
  `mutex.lock` file: `Option String` (`none` = the file does not exist).
* The operating system environment is abstracted as `Env`: which process
  ids are currently alive (`psutil.pid_exists`) and the current pid
  (`os.getpid()`).
* Python exceptions are modelled with `Except String`; a call into the
  `Updater` collaborator is a function `String → Except String Unit`.
* Printed / logged lines are collected in `List String`; colour escape
  prefixes (colorama) are omitted as pure formatting.
-/

namespace UpdaterModel

/-- Python `str.strip()` on the lock-file contents: drop leading and
trailing whitespace. -/
def pyStrip (s : String) : String :=
  ⟨((s.data.dropWhile Char.isWhitespace).reverse.dropWhile Char.isWhitespace).reverse⟩

/-- Value of a nonempty all-digit character list, `none` otherwise.
Helper for `pyInt?`. -/
def parseDigits (cs : List Char) : Option Nat :=
  match cs with
  | [] => none
  | _ =>
    cs.foldl
      (fun acc c =>
        acc.bind (fun n => if c.isDigit then some (10 * n + (c.toNat - 48)) else none))
      (some 0)

/-- Python `int(s)` on an already-stripped string: optional sign followed by
a nonempty digit run; anything else raises `ValueError`, modelled as `none`.
(Python additionally accepts `_` digit-group separators; no claim depends on
such inputs.) -/
def pyInt? (s : String) : Option Int :=
  match s.data with
  | '+' :: rest => (parseDigits rest).map Int.ofNat
  | '-' :: rest => (parseDigits rest).map (fun n => -(Int.ofNat n))
  | cs => (parseDigits cs).map Int.ofNat

/-- OS-level environment of a run: which pids are alive (`psutil.pid_exists`)
and the current process id (`os.getpid()`). -/
structure Env where
  alive : Int → Bool
  currentPid : Int

/-- Outcome kind of `UpdateManager.check_single_instance`. -/
inductive CheckResult where
  /-- `--disable-mutex-check` was given: the check is skipped entirely. -/
  | bypassed : CheckResult
  /-- Another live instance detected: `sys.exit(code)` with the offending pid. -/
  | exitWith (code : Nat) (pid : Int) : CheckResult
  /-- `int(lock.read().strip())` raised `ValueError`: the run aborts. -/
  | crashed : CheckResult
  /-- The lock was (re)created with the current pid and the run proceeds. -/
  | acquired : CheckResult
deriving DecidableEq, Repr

/-- Full result of `check_single_instance`: outcome kind, lock-file contents
afterwards, and the lines printed. -/
structure CheckOutcome where
  result : CheckResult
  fs : Option String
  output : List String
deriving DecidableEq, Repr

/-- `UpdateManager.check_single_instance` (lines 60–82).  `disableMutexCheck`
is `self.arguments.disable_mutex_check`, `fs` the current contents of
`mutex.lock`.  Mirrors the source: bypass short-circuit; read + `int()` parse
of an existing file; the `if existing_pid and psutil.pid_exists(existing_pid)`
guard (Python truthiness: `existing_pid` nonzero); `sys.exit(1)` on a live
instance before any write; otherwise write the current pid. -/
def check_single_instance (disableMutexCheck : Bool) (env : Env) (fs : Option String) :
    CheckOutcome :=
  if disableMutexCheck then
    ⟨.bypassed, fs, ["Mutex check is disabled. Multiple instances can run concurrently."]⟩
  else
    match fs with
    | some content =>
      match pyInt? (pyStrip content) with
      | none => ⟨.crashed, some content, []⟩
      | some existing_pid =>
        if existing_pid != 0 && env.alive existing_pid then
          ⟨.exitWith 1 existing_pid, some content,
            [s!"Another instance of the script is already running (PID: {existing_pid}). Exiting."]⟩
        else
          ⟨.acquired, some (toString env.currentPid),
            [s!"Stale mutex detected (PID: {existing_pid}). Regenerating with current PID."]⟩
    | none => ⟨.acquired, some (toString env.currentPid), []⟩

/-- `UpdateManager.cleanup_mutex` (lines 84–89): remove the lock file when the
mutex check is enabled and the file exists; otherwise leave the state alone. -/
def cleanup_mutex (disableMutexCheck : Bool) (fs : Option String) : Option String :=
  if !disableMutexCheck && fs.isSome then none else fs

/-- POSIX `signal.SIGINT`. -/
def SIGINT : Int := 2

/-- POSIX `signal.SIGTERM`. -/
def SIGTERM : Int := 15

/-- `UpdateManager.exit_handler` (lines 48–58): name the signal (`SIGINT` if
`signum == SIGINT`, else `SIGTERM`), print the notice, run `cleanup_mutex`,
and `sys.exit(0)`.  Returns (printed line, lock-file state afterwards, exit
code). -/
def exit_handler (signum : Int) (disableMutexCheck : Bool) (fs : Option String) :
    String × Option String × Nat :=
  let signal_name := if signum == SIGINT then "SIGINT" else "SIGTERM"
  (s!"{signal_name} detected. Exiting gracefully",
   cleanup_mutex disableMutexCheck fs,
   0)

/-- Tail of `UpdateManager.main` (lines 362–363): `handle_updates()` followed
by `cleanup_mutex()`, with the outcome of `handle_updates` abstracted as an
`Except` (it has no internal catch-all, so an exception escaping it propagates
out of `main`).  Returns the final lock-file state and whether `cleanup_mutex`
was invoked: on `.error` Python skips the next statement and the exception
escapes — there is no try/finally in `main`. -/
def main_tail (disableMutexCheck : Bool) (updatesOutcome : Except String Unit)
    (fs : Option String) : Option String × Bool :=
  match updatesOutcome with
  | .ok _ => (cleanup_mutex disableMutexCheck fs, true)
  | .error _ => (fs, false)

/-- Reserved section name `self.config_section_defaults` (`'UpdaterConfig'`). -/
def config_section_defaults : String := "UpdaterConfig"

/-- Reserved section name `self.config_section_self_update`
(`'UpdaterAutoUpdater'`). -/
def config_section_self_update : String := "UpdaterAutoUpdater"

/-- `UpdateManager.generate_update_list` (lines 261–279).  `cliUpdate` is
`self.arguments.update` (`none` when `-u` was not given; `some []` for a bare
`-u`); `sections` is `config_manager.get_sections()`.  Python `if not
update_list` treats both `None` and `[]` as falsy; `list.remove(x)` deletes
the first occurrence and is guarded by membership (exactly `List.erase`). -/
def generate_update_list (cliUpdate : Option (List String)) (sections : List String) :
    List String :=
  match cliUpdate with
  | some (n :: rest) => n :: rest
  | _ => (sections.erase config_section_defaults).erase config_section_self_update

/-- Per-target accumulator of the loop in `handle_tool_updates`:
`failed_updates`, `failed_names`, plus the trace of names on which
`updater.update` was invoked and the error messages logged. -/
structure BatchState where
  failed_updates : Nat
  failed_names : List String
  attempted : List String
  errors_logged : List String
deriving DecidableEq, Repr

/-- One iteration of the `for name in update_list` loop (lines 312–318):
call `updater.update(name)`; on an exception increment the counter, record
the name and log the error; in every case proceed to the next name. -/
def batchStep (update : String → Except String Unit) (st : BatchState) (name : String) :
    BatchState :=
  match update name with
  | .ok _ => { st with attempted := st.attempted ++ [name] }
  | .error e =>
    { failed_updates := st.failed_updates + 1
      failed_names := st.failed_names ++ [name]
      attempted := st.attempted ++ [name]
      errors_logged := st.errors_logged ++ [e] }

/-- The summary line logged at lines 324–326. -/
def summaryLine (success failed total : Nat) : String :=
  s!"[*] Update process completed: {success} succeeded, {failed} failed out of {total} total updates."

/-- The failed-names line logged at lines 328–329. -/
def failedLine (names : List String) : String :=
  "    Failed updates: " ++ String.intercalate ", " names

/-- Result of `handle_tool_updates`: counters, name lists, and the summary
lines logged after the loop. -/
structure BatchResult where
  total_updates : Nat
  failed_updates : Nat
  failed_names : List String
  attempted : List String
  errors_logged : List String
  output : List String
deriving DecidableEq, Repr

/-- `UpdateManager.handle_tool_updates` (lines 300–329): run the per-target
loop over `update_list`, then log the summary line and, when `failed_names`
is nonempty, the failed-names line. -/
def handle_tool_updates (update : String → Except String Unit) (update_list : List String) :
    BatchResult :=
  let st := update_list.foldl (batchStep update) ⟨0, [], [], []⟩
  let total_updates := update_list.length
  let success := total_updates - st.failed_updates
  { total_updates := total_updates
    failed_updates := st.failed_updates
    failed_names := st.failed_names
    attempted := st.attempted
    errors_logged := st.errors_logged
    output :=
      summaryLine success st.failed_updates total_updates ::
        (if st.failed_names.isEmpty then [] else [failedLine st.failed_names]) }

instance : DecidableEq (Except String Unit)
  | .ok (), .ok () => isTrue rfl
  | .error e, .error f =>
    if h : e = f then isTrue (h ▸ rfl)
    else isFalse (fun hh => h (Except.error.inj hh))
  | .ok (), .error _ => isFalse Except.noConfusion
  | .error _, .ok () => isFalse Except.noConfusion

/-- Whether the self-update step ran, and with which outcome. -/
inductive SelfUpdateStep where
  | skipped : SelfUpdateStep
  | ran (outcome : Except String Unit) : SelfUpdateStep
deriving DecidableEq, Repr

/-- `UpdateManager.handle_auto_update` (lines 281–298): run the self-update
iff the self-update section is present in configuration and
`--disable-self-update` was not given; an exception from `updater.update` is
caught and logged.  `selfUpdateOutcome` abstracts the collaborator call
`updater.update(self.config_section_self_update)`.  Returns the step taken
and the lines logged. -/
def handle_auto_update (sections : List String) (disable_self_update : Bool)
    (selfUpdateOutcome : Except String Unit) : SelfUpdateStep × List String :=
  if config_section_self_update ∈ sections && !disable_self_update then
    (.ran selfUpdateOutcome,
     "[+] Checking for engine updates:" ::
       (match selfUpdateOutcome with
        | .ok _ => []
        | .error e => [e]) ++ ["\n"])
  else
    (.skipped, [])

/-- `UpdateManager.handle_updates` (lines 331–345): `handle_auto_update`,
then the batch pass over `generate_update_list`, then
`updater.cleanup_update_folder()` (the returned `Bool` records that this
cleanup hook was invoked). -/
def handle_updates (cliUpdate : Option (List String)) (sections : List String)
    (disable_self_update : Bool) (selfUpdateOutcome : Except String Unit)
    (update : String → Except String Unit) :
    SelfUpdateStep × BatchResult × Bool :=
  let auto := handle_auto_update sections disable_self_update selfUpdateOutcome
  let update_list := generate_update_list cliUpdate sections
  let batch := handle_tool_updates update update_list
  (auto.1, batch, true)

/-- Modelled from the spec: `ConfigManager.get_boolean`'s parsing of a stored
string (the `ConfigManager` source is not part of this repository snapshot).
Spec §4.2: booleans are parsed case-insensitively from the truthy/falsy token
set `true/1/yes/on` (and the matching falsy tokens); anything else is
unparsable. -/
def parse_bool_token (s : String) : Option Bool :=
  let t : String := ⟨s.data.map Char.toLower⟩
  if t = "true" || t = "1" || t = "yes" || t = "on" then some true
  else if t = "false" || t = "0" || t = "no" || t = "off" then some false
  else none

/-- Modelled from the spec: `ConfigManager.get_boolean(section, option,
fallback)` restricted to the defaults section — `stored` maps an option name
to the string persisted under `[UpdaterConfig]`, `none` when absent.  Spec
§4.2: absence of a stored value or an unparsable value falls through to the
fallback. -/
def get_boolean (stored : String → Option String) (option : String) (fallback : Bool) :
    Bool :=
  match stored option with
  | none => fallback
  | some s => (parse_bool_token s).getD fallback

/-- `UpdateManager.get_argparse_default` (lines 91–104) in its boolean form
(`is_bool=True`): look the option up in the defaults section with the
built-in default as fallback. -/
def get_argparse_default (stored : String → Option String) (option : String)
    (default : Bool) : Bool :=
  get_boolean stored option default

/-- The recognized boolean options wired through `get_argparse_default` in
`parse_arguments` (lines 132–163), with their built-in defaults. -/
def boolOptionDefaults : List (String × Bool) :=
  [("disable_clean", true), ("disable_repack", true),
   ("disable_install_check", false), ("disable_progress", false)]

/-- Resolved value of a recognized boolean option after argparse: with
`action=store_true`, giving the flag on the command line yields `True`;
otherwise the argparse default computed by `get_argparse_default` applies. -/
def resolved_bool_option (stored : String → Option String) (option : String)
    (builtin : Bool) (cliSupplied : Bool) : Bool :=
  if cliSupplied then true else get_argparse_default stored option builtin

/-- Did the collaborator call raise? -/
def isFailure : Except String Unit → Bool
  | .ok _ => false
  | .error _ => true

/-- Error message of a failed collaborator call, when any. -/
def errMsg : Except String Unit → Option String
  | .ok _ => none
  | .error e => some e

/-- Concrete environment in which every pid is alive. -/
def aliveEnv : Env := ⟨fun _ => true, 7⟩

/-- Concrete environment in which no pid is alive. -/
def deadEnv : Env := ⟨fun _ => false, 7⟩

/-- Concrete environment for the pid-0 lock-file scenario. -/
def cexEnv : Env := ⟨fun _ => true, 99⟩

/-- Closed form of the batch loop: the fold over `batchStep` appends the whole
list to the attempt trace, the failing names to `failed_names`, their count to
`failed_updates`, and their messages to `errors_logged`. -/
theorem foldl_batchStep_eq (update : String → Except String Unit) (l : List String) :
    ∀ st : BatchState,
      l.foldl (batchStep update) st =
        { failed_updates := st.failed_updates + (l.filter (fun n => isFailure (update n))).length
          failed_names := st.failed_names ++ l.filter (fun n => isFailure (update n))
          attempted := st.attempted ++ l
          errors_logged := st.errors_logged ++ l.filterMap (fun n => errMsg (update n)) } := by
  induction l with
  | nil => intro st; simp
  | cons n l ih =>
    intro st
    rw [List.foldl_cons, ih]
    cases h : update n with
    | ok u =>
      simp [batchStep, h, isFailure, errMsg, List.filter_cons, List.filterMap_cons,
        List.append_assoc]
    | error e =>
      simp [batchStep, h, isFailure, errMsg, List.filter_cons, List.filterMap_cons,
        List.append_assoc, Nat.add_assoc, Nat.add_comm]

/-- Field-level description of `handle_tool_updates`. -/
theorem handle_tool_updates_fields (update : String → Except String Unit) (l : List String) :
    (handle_tool_updates update l).attempted = l ∧
    (handle_tool_updates update l).failed_names = l.filter (fun n => isFailure (update n)) ∧
    (handle_tool_updates update l).failed_updates =
      (l.filter (fun n => isFailure (update n))).length ∧
    (handle_tool_updates update l).errors_logged =
      l.filterMap (fun n => errMsg (update n)) ∧
    (handle_tool_updates update l).total_updates = l.length := by
  unfold handle_tool_updates
  rw [foldl_batchStep_eq]
  simp

/-- Closed form of the output lines of `handle_tool_updates`. -/
theorem handle_tool_updates_output (update : String → Except String Unit) (l : List String) :
    (handle_tool_updates update l).output =
      summaryLine (l.length - (l.filter (fun n => isFailure (update n))).length)
          (l.filter (fun n => isFailure (update n))).length l.length ::
        (if (l.filter (fun n => isFailure (update n))).isEmpty then []
         else [failedLine (l.filter (fun n => isFailure (update n)))]) := by
  unfold handle_tool_updates
  rw [foldl_batchStep_eq]
  simp

/-- C1: in a batch run over any target list, `handle_tool_updates` invokes
`updater.update(name)` for every name in the list in order (the attempt trace
equals the whole list), catches each target's exception, records the failing
name and its message, and continues — so a failure from one target never
prevents any subsequent target from being attempted. -/
theorem C1_batch_isolation (update : String → Except String Unit) (l : List String) :
    (handle_tool_updates update l).attempted = l ∧
    (handle_tool_updates update l).failed_names = l.filter (fun n => isFailure (update n)) ∧
    (handle_tool_updates update l).errors_logged =
      l.filterMap (fun n => errMsg (update n)) := by
  obtain ⟨h1, h2, _, h4, _⟩ := handle_tool_updates_fields update l
  exact ⟨h1, h2, h4⟩

/-- C2: for every batch run the reported summary satisfies
`succeeded + failed = total` with `total` the length of the target list,
`failed_names.length = failed_updates`, every failed name is a member of the
original target list, and the failed-names line is emitted (as a second
output line) iff at least one target failed. -/
theorem C2_summary_invariants (update : String → Except String Unit) (l : List String) :
    (handle_tool_updates update l).total_updates = l.length ∧
    (handle_tool_updates update l).failed_updates ≤ (handle_tool_updates update l).total_updates ∧
    ((handle_tool_updates update l).total_updates - (handle_tool_updates update l).failed_updates)
        + (handle_tool_updates update l).failed_updates
      = (handle_tool_updates update l).total_updates ∧
    (handle_tool_updates update l).failed_names.length
      = (handle_tool_updates update l).failed_updates ∧
    (∀ n ∈ (handle_tool_updates update l).failed_names, n ∈ l) ∧
    (handle_tool_updates update l).output.head? =
      some (summaryLine
        ((handle_tool_updates update l).total_updates -
          (handle_tool_updates update l).failed_updates)
        (handle_tool_updates update l).failed_updates
        (handle_tool_updates update l).total_updates) ∧
    ((handle_tool_updates update l).failed_names = [] →
      (handle_tool_updates update l).output.length = 1) ∧
    ((handle_tool_updates update l).failed_names ≠ [] →
      (handle_tool_updates update l).output =
        [summaryLine
          ((handle_tool_updates update l).total_updates -
            (handle_tool_updates update l).failed_updates)
          (handle_tool_updates update l).failed_updates
          (handle_tool_updates update l).total_updates,
         failedLine (handle_tool_updates update l).failed_names]) := by
  obtain ⟨h1, h2, h3, _, h5⟩ := handle_tool_updates_fields update l
  have hle : (handle_tool_updates update l).failed_updates ≤
      (handle_tool_updates update l).total_updates := by
    rw [h3, h5]; exact List.length_filter_le _ l
  refine ⟨h5, hle, Nat.sub_add_cancel hle, ?_, ?_, ?_, ?_, ?_⟩
  · rw [h2, h3]
  · intro n hn
    rw [h2] at hn
    exact (List.mem_filter.mp hn).1
  · rw [h3, h5, handle_tool_updates_output]
    rfl
  · intro hempty
    rw [h2] at hempty
    rw [handle_tool_updates_output]
    simp [hempty]
  · intro hne
    rw [h2] at hne
    rw [handle_tool_updates_output, h2, h3, h5]
    simp [hne]

/-- Witness for C2 at a concrete batch in which the middle target fails: the
failed-names line is emitted as the second output line. -/
theorem C2_summary_invariants_witness :
    (handle_tool_updates (fun n => if n == "B" then .error "boom" else .ok ())
        ["A", "B", "C"]).output =
      [summaryLine
        ((handle_tool_updates (fun n => if n == "B" then .error "boom" else .ok ())
            ["A", "B", "C"]).total_updates -
          (handle_tool_updates (fun n => if n == "B" then .error "boom" else .ok ())
            ["A", "B", "C"]).failed_updates)
        ((handle_tool_updates (fun n => if n == "B" then .error "boom" else .ok ())
            ["A", "B", "C"]).failed_updates)
        ((handle_tool_updates (fun n => if n == "B" then .error "boom" else .ok ())
            ["A", "B", "C"]).total_updates),
       failedLine ((handle_tool_updates (fun n => if n == "B" then .error "boom" else .ok ())
            ["A", "B", "C"]).failed_names)] :=
  (C2_summary_invariants (fun n => if n == "B" then .error "boom" else .ok ())
      ["A", "B", "C"]).2.2.2.2.2.2.2 (by decide)

/-- C3 counterexample: a lock artifact whose recorded process id `0` belongs
to a currently alive process (pid 0 exists per the environment, as
`psutil.pid_exists(0)` reports on POSIX systems).  `check_single_instance`
does NOT fail with the already-running exit: because of the Python truthiness
guard `if existing_pid and psutil.pid_exists(existing_pid)`, it treats the
artifact as stale and rewrites it with the current pid. -/
theorem C3_counterexample :
    cexEnv.alive 0 = true ∧
    pyInt? (pyStrip "0") = some 0 ∧
    (check_single_instance false cexEnv (some "0")).result = CheckResult.acquired ∧
    (check_single_instance false cexEnv (some "0")).fs = some "99" := by
  decide

/-- C3 (amended): when bypass is false and a lock artifact exists whose
recorded process id is nonzero and belongs to a currently alive process,
`check_single_instance` prints the already-running message, terminates via
`sys.exit(1)` — a distinct nonzero exit code — and leaves the lock artifact
unchanged (no write occurs before exiting). -/
theorem C3_already_running (env : Env) (c : String) (p : Int)
    (hp : pyInt? (pyStrip c) = some p) (hnz : p ≠ 0) (ha : env.alive p = true) :
    check_single_instance false env (some c) =
      ⟨CheckResult.exitWith 1 p, some c,
        ["Another instance of the script is already running (PID: " ++ toString p ++
          "). Exiting."]⟩ ∧
    (1 : Nat) ≠ 0 := by
  constructor
  · simp only [check_single_instance]
    rw [hp]
    simp [ha, hnz]
    rfl
  · decide

/-- Witness for C3 (amended): a live nonzero pid `42` recorded in the lock. -/
theorem C3_already_running_witness :
    check_single_instance false aliveEnv (some "42") =
      ⟨CheckResult.exitWith 1 42, some "42",
        ["Another instance of the script is already running (PID: " ++ toString (42 : Int) ++
          "). Exiting."]⟩ ∧
    (1 : Nat) ≠ 0 :=
  C3_already_running aliveEnv "42" 42 (by decide) (by decide) (by decide)

/-- C4: when bypass is false and a lock artifact exists whose recorded
process id is not alive, `check_single_instance` succeeds (the run proceeds),
prints the informational stale-lock notice, and rewrites the artifact with
the current process id. -/
theorem C4_stale_reclaim (env : Env) (c : String) (p : Int)
    (hp : pyInt? (pyStrip c) = some p) (hd : env.alive p = false) :
    check_single_instance false env (some c) =
      ⟨CheckResult.acquired, some (toString env.currentPid),
        ["Stale mutex detected (PID: " ++ toString p ++ "). Regenerating with current PID."]⟩ := by
  simp only [check_single_instance]
  rw [hp]
  simp [hd]
  rfl

/-- Witness for C4: a dead pid `42` recorded in the lock is reclaimed by the
current pid `7`. -/
theorem C4_stale_reclaim_witness :
    check_single_instance false deadEnv (some "42") =
      ⟨CheckResult.acquired, some (toString deadEnv.currentPid),
        ["Stale mutex detected (PID: " ++ toString (42 : Int) ++
          "). Regenerating with current PID."]⟩ :=
  C4_stale_reclaim deadEnv "42" 42 (by decide) (by decide)

/-- C10 (implicit): `check_single_instance` is not total over lock-artifact
contents — when the existing file's contents do not parse as a decimal
integer, the `int()` conversion raises an unhandled exception and the run
aborts (modelled as `crashed`); in particular the artifact is not treated as
stale: it is left in place and never rewritten. -/
theorem C10_unparsable_lock_crashes (env : Env) (c : String)
    (h : pyInt? (pyStrip c) = none) :
    check_single_instance false env (some c) = ⟨CheckResult.crashed, some c, []⟩ ∧
    (check_single_instance false env (some c)).result ≠ CheckResult.acquired := by
  have heq : check_single_instance false env (some c) =
      ⟨CheckResult.crashed, some c, []⟩ := by
    simp only [check_single_instance]
    rw [h]
    rfl
  refine ⟨heq, ?_⟩
  rw [heq]
  show CheckResult.crashed ≠ CheckResult.acquired
  decide

/-- Witness for C10: an empty lock file (a corrupted artifact) crashes the
check instead of being reclaimed. -/
theorem C10_unparsable_lock_crashes_witness :
    check_single_instance false aliveEnv (some "") = ⟨CheckResult.crashed, some "", []⟩ ∧
    (check_single_instance false aliveEnv (some "")).result ≠ CheckResult.acquired :=
  C10_unparsable_lock_crashes aliveEnv "" (by decide)

/-- C5 counterexample: `main` has no try/finally around `handle_updates()`,
so an unhandled fatal error escaping the update orchestration propagates and
the `cleanup_mutex()` call on the next line is never reached: the lock
artifact survives process termination. -/
theorem C5_counterexample :
    main_tail false (Except.error "boom") (some "7") = (some "7", false) ∧
    (some "7" : Option String) ≠ none := by
  decide

/-- C5 (amended): `cleanup_mutex` is idempotent — calling it any number of
times in succession is safe — and, when the mutex check is not bypassed,
leaves no lock artifact; it is invoked on normal completion (`main` line 363)
and on signaled termination (`exit_handler`), but an unhandled fatal error
escaping the update orchestration terminates the run without invoking it. -/
theorem C5_cleanup_paths :
    (∀ d fs, cleanup_mutex d (cleanup_mutex d fs) = cleanup_mutex d fs) ∧
    (∀ fs, cleanup_mutex false fs = none) ∧
    (∀ d fs, main_tail d (Except.ok ()) fs = (cleanup_mutex d fs, true)) ∧
    (∀ s d fs, (exit_handler s d fs).2.1 = cleanup_mutex d fs ∧
      (exit_handler s d fs).2.2 = 0) ∧
    (∀ d e fs, main_tail d (Except.error e) fs = (fs, false)) := by
  refine ⟨?_, ?_, ?_, ?_, ?_⟩
  · intro d fs
    cases d <;> cases fs <;> rfl
  · intro fs
    cases fs <;> rfl
  · intro d fs
    rfl
  · intro s d fs
    exact ⟨rfl, rfl⟩
  · intro d e fs
    rfl

/-- C6: the self-update step runs iff the self-update section exists in the
configuration and the caller has not disabled self-update; when it runs and
raises, the exception message is caught and logged; and the main batch pass
(over `generate_update_list`) plus the update-folder cleanup execute
identically whatever the self-update outcome was. -/
theorem C6_self_update (cliUpdate : Option (List String)) (sections : List String)
    (disable_self_update : Bool) (so : Except String Unit)
    (update : String → Except String Unit) :
    ((handle_updates cliUpdate sections disable_self_update so update).1 =
        SelfUpdateStep.ran so ↔
      (config_section_self_update ∈ sections ∧ disable_self_update = false)) ∧
    (∀ e, config_section_self_update ∈ sections → disable_self_update = false →
      so = Except.error e → e ∈ (handle_auto_update sections disable_self_update so).2) ∧
    (handle_updates cliUpdate sections disable_self_update so update).2.1 =
      handle_tool_updates update (generate_update_list cliUpdate sections) ∧
    (∀ so2, (handle_updates cliUpdate sections disable_self_update so update).2 =
      (handle_updates cliUpdate sections disable_self_update so2 update).2) ∧
    (handle_updates cliUpdate sections disable_self_update so update).2.2 = true := by
  refine ⟨?_, ?_, rfl, fun so2 => rfl, rfl⟩
  · by_cases hmem : config_section_self_update ∈ sections
    · cases disable_self_update with
      | false => simp [handle_updates, handle_auto_update, hmem]
      | true => simp [handle_updates, handle_auto_update, hmem]
    · simp [handle_updates, handle_auto_update, hmem]
  · intro e hmem hd hso
    subst hso hd
    simp [handle_auto_update, hmem]

/-- Witness for C6: with the self-update section present, not disabled, and a
failing self-update, the step ran. -/
theorem C6_self_update_witness :
    (handle_updates none ["UpdaterAutoUpdater", "t1"] false (Except.error "selffail")
        (fun _ => Except.ok ())).1 =
      SelfUpdateStep.ran (Except.error "selffail") :=
  (C6_self_update none ["UpdaterAutoUpdater", "t1"] false (Except.error "selffail")
      (fun _ => Except.ok ())).1.mpr ⟨by decide, rfl⟩

/-- C7: for every recognized boolean option, the resolved value follows the
precedence — an explicitly supplied runtime flag wins (with `store_true` it
yields `true`); otherwise the value persisted under the defaults section when
it parses as a truthy/falsy token; otherwise the built-in default — and,
being a total `Bool`-valued function, nothing else is ever produced. -/
theorem C7_option_precedence (option : String) (builtin : Bool)
    (_hrec : (option, builtin) ∈ boolOptionDefaults)
    (stored : String → Option String) (cliSupplied : Bool) :
    (cliSupplied = true → resolved_bool_option stored option builtin cliSupplied = true) ∧
    (cliSupplied = false → ∀ s b, stored option = some s → parse_bool_token s = some b →
      resolved_bool_option stored option builtin cliSupplied = b) ∧
    (cliSupplied = false → stored option = none →
      resolved_bool_option stored option builtin cliSupplied = builtin) ∧
    (cliSupplied = false → ∀ s, stored option = some s → parse_bool_token s = none →
      resolved_bool_option stored option builtin cliSupplied = builtin) := by
  refine ⟨?_, ?_, ?_, ?_⟩
  · intro h
    simp [resolved_bool_option, h]
  · intro h s b hs hb
    simp [resolved_bool_option, h, get_argparse_default, get_boolean, hs, hb]
  · intro h hs
    simp [resolved_bool_option, h, get_argparse_default, get_boolean, hs]
  · intro h s hs hb
    simp [resolved_bool_option, h, get_argparse_default, get_boolean, hs, hb]

/-- Witness for C7 at the recognized option `disable_clean` (built-in default
`true`): no runtime flag and a persisted falsy token `"no"` resolve to
`false`. -/
theorem C7_option_precedence_witness :
    resolved_bool_option (fun _ => some "no") "disable_clean" true false = false :=
  (C7_option_precedence "disable_clean" true (by decide) (fun _ => some "no") false).2.1
    rfl "no" false rfl (by decide)

/-- C8: target resolution — an explicit non-empty caller-supplied list is
used verbatim; otherwise (no `-u`, or a bare `-u` producing an empty list)
the resolved list is the configuration's section names in stored order with
the defaults section and the self-update section removed. -/
theorem C8_target_resolution (sections : List String) (hnd : sections.Nodup)
    (cliUpdate : Option (List String)) :
    (∀ l, cliUpdate = some l → l ≠ [] → generate_update_list cliUpdate sections = l) ∧
    ((cliUpdate = none ∨ cliUpdate = some []) →
      generate_update_list cliUpdate sections =
        sections.filter
          (fun n => n != config_section_defaults && n != config_section_self_update)) := by
  constructor
  · intro l hl hne
    subst hl
    cases l with
    | nil => exact absurd rfl hne
    | cons n rest => rfl
  · intro hcli
    have herase : (sections.erase config_section_defaults).erase config_section_self_update =
        sections.filter
          (fun n => n != config_section_defaults && n != config_section_self_update) := by
      rw [List.Nodup.erase_eq_filter hnd, List.Nodup.erase_eq_filter (hnd.filter _),
        List.filter_filter]
      apply List.filter_congr
      intro n _
      exact Bool.and_comm _ _
    rcases hcli with h | h <;> subst h <;> exact herase

/-- Witness for C8: with no explicit list, a four-section configuration
resolves to its two tool sections in stored order. -/
theorem C8_target_resolution_witness :
    generate_update_list none ["UpdaterConfig", "tool1", "UpdaterAutoUpdater", "tool2"] =
      ["UpdaterConfig", "tool1", "UpdaterAutoUpdater", "tool2"].filter
        (fun n => n != config_section_defaults && n != config_section_self_update) :=
  (C8_target_resolution ["UpdaterConfig", "tool1", "UpdaterAutoUpdater", "tool2"]
      (by decide) none).2 (Or.inl rfl)

/-- C9: on an interrupt or terminate signal the installed handler prints a
notice naming the signal that fired, deletes the lock artifact when the mutex
check is not bypassed, and terminates with exit status zero. -/
theorem C9_signal_handler (signum : Int) (d : Bool) (fs : Option String)
    (hs : signum = SIGINT ∨ signum = SIGTERM) :
    (exit_handler signum d fs).2.2 = 0 ∧
    (signum = SIGINT →
      (exit_handler signum d fs).1 = "SIGINT detected. Exiting gracefully") ∧
    (signum = SIGTERM →
      (exit_handler signum d fs).1 = "SIGTERM detected. Exiting gracefully") ∧
    (d = false → (exit_handler signum d fs).2.1 = none) := by
  refine ⟨rfl, ?_, ?_, ?_⟩
  · intro h
    subst h
    rfl
  · intro h
    subst h
    rfl
  · intro h
    subst h
    cases fs <;> rfl

/-- Witness for C9 at SIGINT with the mutex check enabled and a lock file
present. -/
theorem C9_signal_handler_witness :
    (exit_handler SIGINT false (some "7")).2.2 = 0 ∧
    (SIGINT = SIGINT →
      (exit_handler SIGINT false (some "7")).1 = "SIGINT detected. Exiting gracefully") ∧
    (SIGINT = SIGTERM →
      (exit_handler SIGINT false (some "7")).1 = "SIGTERM detected. Exiting gracefully") ∧
    (false = false → (exit_handler SIGINT false (some "7")).2.1 = none) :=
  C9_signal_handler SIGINT false (some "7") (Or.inl rfl)

end UpdaterModel
